import Mathlib

/-!
Shallow embedding of the expense-tracker page (`src/app/page.tsx`).

JavaScript numbers are modelled as exact rationals (`ℚ`) where the code
only adds, divides and rounds small decimal amounts; the submission path,
whose guard `isNaN(Number.parseFloat(amount))` also lets non-finite
numbers through, is modelled over the full value domain `JSFloat`
(`nan`, signed `infinity`, finite rational).  `Math.round` is JavaScript's
round-half-up, `⌊x + 1/2⌋`.  `Number.parseFloat` is modelled in two
layers: `parseFloat` covers the decimal-literal grammar (optional
whitespace, sign, digits with optional fraction and exponent, longest
valid prefix), with `none` for `NaN`, and `parseFloatJS` completes it with
the `Infinity` literal and overflow of decimal values past the
double-precision range.  React state updates become explicit state
passing; toast calls become explicit `Toast` values.
-/

/-- The `Currency` union type: `"EUR" | "USD" | "VND"`. -/
inductive Currency where
  | EUR
  | USD
  | VND
deriving DecidableEq, Repr

/-- The five entries of the `categories` array, as an enumeration.
`Category.name` recovers the source strings. -/
inductive Category where
  | restaurant
  | supermarketFood
  | groceries
  | furniture
  | other
deriving DecidableEq, Repr

/-- The literal strings of the `categories` array. -/
def Category.name : Category → String
  | .restaurant => "Eating in the restaurant"
  | .supermarketFood => "Supermarket for food"
  | .groceries => "Groceries"
  | .furniture => "Furniture"
  | .other => "Other"

/-- The `categories` array (all five categories, in source order). -/
def allCategories : List Category :=
  [Category.restaurant, Category.supermarketFood, Category.groceries,
   Category.furniture, Category.other]

/-- The `Expense` record type. -/
structure Expense where
  id : ℤ
  amount : ℚ
  currency : Currency
  category : Category
  description : String
deriving DecidableEq, Repr

/-- The `ExchangeRates` record type: units of each currency per one EUR. -/
structure ExchangeRates where
  EUR : ℚ
  USD : ℚ
  VND : ℚ
deriving DecidableEq, Repr

/-- Indexing `exchangeRates[c]` by a `Currency` value. -/
def ExchangeRates.get (r : ExchangeRates) : Currency → ℚ
  | .EUR => r.EUR
  | .USD => r.USD
  | .VND => r.VND

/-- The `CategorySum` type.  In the source it is
`{ [key in Currency]: number } & { VND: number }`: the intersection
contributes no fourth field, so the record has exactly the three numeric
fields `EUR`, `USD`, `VND`, and the native-VND subtotal and the converted
reporting-currency total share the single `VND` field. -/
structure CategorySum where
  EUR : ℚ
  USD : ℚ
  VND : ℚ
deriving DecidableEq, Repr

/-- The zero accumulator `{ EUR: 0, USD: 0, VND: 0 }`. -/
def CategorySum.zero : CategorySum := CategorySum.mk 0 0 0

/-- JavaScript `Math.round`: round half up, `⌊x + 1/2⌋`. -/
def mathRound (q : ℚ) : ℤ := ⌊q + 1 / 2⌋

/-- Function `convertToVND` (page.tsx lines 90–93): amounts not in EUR are first
divided by their currency's rate, then the EUR amount is multiplied by the
VND rate and rounded once. -/
def convertToVND (rates : ExchangeRates) (amount : ℚ) (fromCurrency : Currency) : ℤ :=
  let euroAmount := if fromCurrency = Currency.EUR then amount else amount / rates.get fromCurrency
  mathRound (euroAmount * rates.VND)

/-- The exact (unrounded) reporting-currency value of one amount: the
expression `euroAmount * exchangeRates.VND` inside `convertToVND`, before
`Math.round` is applied. -/
def unroundedVND (rates : ExchangeRates) (amount : ℚ) (fromCurrency : Currency) : ℚ :=
  (if fromCurrency = Currency.EUR then amount else amount / rates.get fromCurrency) * rates.VND

/-- Statement `sums[cat][expense.currency] += expense.amount` (page.tsx line 105). -/
def addNative (s : CategorySum) (c : Currency) (a : ℚ) : CategorySum :=
  match c with
  | .EUR => CategorySum.mk (s.EUR + a) s.USD s.VND
  | .USD => CategorySum.mk s.EUR (s.USD + a) s.VND
  | .VND => CategorySum.mk s.EUR s.USD (s.VND + a)

/-- The body of the `expenses.forEach` loop in `categorySums`
(page.tsx lines 101–107): the expense's category cell gains the raw amount
on its own currency's field, then the rounded conversion on the `VND`
field.  Cells of other categories are untouched; a category first seen
here starts from the zero accumulator, which is the initial map below. -/
def applyExpense (rates : ExchangeRates) (sums : Category → CategorySum)
    (e : Expense) : Category → CategorySum :=
  fun c =>
    if c = e.category then
      let s1 := addNative (sums c) e.currency e.amount
      CategorySum.mk s1.EUR s1.USD (s1.VND + (convertToVND rates e.amount e.currency : ℚ))
    else sums c

/-- Memo `categorySums` (page.tsx lines 99–109), as a fold over the expense
list.  The source record holds entries only for categories that occurred;
here every category has a cell and the unseen ones keep the zero
accumulator (`if (!sums[...]) sums[...] = {EUR:0,USD:0,VND:0}`). -/
def categorySums (rates : ExchangeRates) (expenses : List Expense) :
    Category → CategorySum :=
  expenses.foldl (applyExpense rates) (fun _ => CategorySum.zero)

/-- Field-wise addition of accumulators: the three `total.X += categorySum.X`
statements in `totalSum` (page.tsx lines 114–116). -/
def addSum (a b : CategorySum) : CategorySum :=
  CategorySum.mk (a.EUR + b.EUR) (a.USD + b.USD) (a.VND + b.VND)

/-- Memo `totalSum` (page.tsx lines 111–119): fold the per-category accumulators
field-wise into one total.  `Object.values` visits only the categories that
occurred; folding over all five adds zero accumulators for the rest, which
changes no field. -/
def totalSum (rates : ExchangeRates) (expenses : List Expense) : CategorySum :=
  allCategories.foldl (fun t c => addSum t (categorySums rates expenses c)) CategorySum.zero

/-- Numeric value of a digit string, most significant first. -/
def digitsToNat (ds : List Char) : ℕ :=
  ds.foldl (fun n c => 10 * n + (c.toNat - 48)) 0

/-- Exponent part of a JavaScript float literal: after `e`/`E`, an optional
sign and digits.  When no digit follows, the exponent part is not part of
the longest valid prefix and contributes a factor of `10 ^ 0`. -/
def exponentValue (cs : List Char) : ℤ :=
  let signed : Bool × List Char :=
    match cs with
    | '-' :: rest => (true, rest)
    | '+' :: rest => (false, rest)
    | _ => (false, cs)
  let ds := signed.2.takeWhile Char.isDigit
  if ds = [] then 0
  else if signed.1 then -(digitsToNat ds : ℤ) else (digitsToNat ds : ℤ)

/-- The finite fragment of `Number.parseFloat`: skip leading whitespace,
read an optional sign, then the longest decimal-literal prefix
`digits [. digits] [e sign digits]` (at least one digit before or after
the point); `none` models the `NaN` result on empty or non-numeric input.
`parseFloatJS` below completes this with the non-finite results. -/
def parseFloat (s : String) : Option ℚ :=
  let cs := s.toList.dropWhile Char.isWhitespace
  let signed : Bool × List Char :=
    match cs with
    | '-' :: rest => (true, rest)
    | '+' :: rest => (false, rest)
    | _ => (false, cs)
  let intPart := signed.2.takeWhile Char.isDigit
  let afterInt := signed.2.dropWhile Char.isDigit
  let fracSplit : List Char × List Char :=
    match afterInt with
    | '.' :: rest => (rest.takeWhile Char.isDigit, rest.dropWhile Char.isDigit)
    | _ => ([], afterInt)
  if intPart = [] ∧ fracSplit.1 = [] then none
  else
    let mant : ℚ :=
      (digitsToNat intPart : ℚ) + (digitsToNat fracSplit.1 : ℚ) / (10 : ℚ) ^ fracSplit.1.length
    let e : ℤ :=
      match fracSplit.2 with
      | 'e' :: rest => exponentValue rest
      | 'E' :: rest => exponentValue rest
      | _ => 0
    let v := mant * (10 : ℚ) ^ e
    some (if signed.1 then -v else v)

/-- A toast notification raised by an event handler. -/
inductive Toast where
  | errorToast (msg : String)
  | successToast (msg : String)
deriving DecidableEq, Repr

/-- The component state touched by `handleSubmit`: the expense list and the
four controlled form fields. -/
structure FormState where
  expenses : List Expense
  amount : String
  currency : Currency
  category : Category
  description : String
deriving DecidableEq, Repr

/-- Result of a submission: the next state and the toast that was shown. -/
structure SubmitOut where
  state : FormState
  toast : Toast
deriving DecidableEq, Repr

/-- Handler `handleSubmit` (page.tsx lines 71–88), restricted to the
finite-parse fragment (`handleSubmitJS` below is the full model).
`!amount || isNaN(Number.parseFloat(amount))` rejects the submission with
an error toast and no state change; otherwise the new expense (id
`Date.now()`, amount `Number.parseFloat(amount)`) is appended and the
amount and description fields are cleared.  `now` stands for
`Date.now()`. -/
def handleSubmit (now : ℤ) (s : FormState) : SubmitOut :=
  if s.amount = "" ∨ (parseFloat s.amount).isNone then
    SubmitOut.mk s (Toast.errorToast "Please enter a valid amount")
  else
    match parseFloat s.amount with
    | none => SubmitOut.mk s (Toast.errorToast "Please enter a valid amount")
    | some q =>
        SubmitOut.mk
          (FormState.mk
            (s.expenses ++ [Expense.mk now q s.currency s.category s.description])
            "" s.currency s.category "")
          (Toast.successToast "Expense added successfully!")

/-- The successfully parsed body of a rate response: `data.rates.USD` and
`data.rates.VND`. -/
structure RateResponse where
  USD : ℚ
  VND : ℚ
deriving DecidableEq, Repr

/-- The initial rate table `useState<ExchangeRates>({ EUR: 1, USD: 1, VND: 1 })`
(page.tsx line 43). -/
def initialRates : ExchangeRates := ExchangeRates.mk 1 1 1

/-- One run of `fetchExchangeRates` (page.tsx lines 46–69) as a function of
the current table and the fetch outcome: `none` is a network or parse
failure (the `catch` branch shows an error toast and performs no
`setExchangeRates`), `some data` replaces the table with
`{ EUR: 1, USD: data.rates.USD, VND: data.rates.VND }`. -/
def fetchStep (current : ExchangeRates) (response : Option RateResponse) : ExchangeRates :=
  match response with
  | none => current
  | some data => ExchangeRates.mk 1 data.USD data.VND

/-! ### The full JavaScript number domain for the submission path

The guard in `handleSubmit` checks only `isNaN`, so the values that can
flow into the store are not just finite numbers: `Number.parseFloat`
returns `Infinity` for the `Infinity` literal and for decimal literals
beyond the double-precision range, and `isNaN(Infinity)` is `false`.
The definitions below model that path without the finite idealisation. -/

/-- A JavaScript number as produced by `Number.parseFloat`: `NaN`, a
signed infinity, or a finite value (kept as an exact rational). -/
inductive JSFloat where
  | nan
  | infinity (neg : Bool)
  | fin (q : ℚ)
deriving DecidableEq, Repr

/-- The global `isNaN` predicate: true exactly on `NaN`. -/
def jsIsNaN : JSFloat → Bool
  | .nan => true
  | _ => false

/-- Whether the first list is an initial segment of the second. -/
def startsWith : List Char → List Char → Bool
  | [], _ => true
  | _ :: _, [] => false
  | p :: ps, c :: cs => p = c && startsWith ps cs

/-- Decimal magnitudes at or above this bound round to `Infinity` in
double precision: `2^1024 - 2^970` is the smallest such magnitude under
round-to-nearest. -/
def doubleOverflowBound : ℚ := 2 ^ 1024 - 2 ^ 970

/-- Full model of `Number.parseFloat`: after whitespace and an optional
sign, the `Infinity` literal yields a signed infinity; otherwise the
decimal grammar of `parseFloat` applies, with values past the
double-precision range overflowing to a signed infinity.  (Finite values
are kept exact rather than rounded to doubles; no claim depends on
double rounding of in-range values.) -/
def parseFloatJS (s : String) : JSFloat :=
  let cs := s.toList.dropWhile Char.isWhitespace
  let signed : Bool × List Char :=
    match cs with
    | '-' :: rest => (true, rest)
    | '+' :: rest => (false, rest)
    | _ => (false, cs)
  if startsWith "Infinity".toList signed.2 then JSFloat.infinity signed.1
  else
    match parseFloat s with
    | none => JSFloat.nan
    | some q =>
        if doubleOverflowBound ≤ |q| then JSFloat.infinity signed.1 else JSFloat.fin q

/-- An expense as the store can actually hold it: the amount is whatever
non-`NaN` number the parse produced, finite or not. -/
structure ExpenseJS where
  id : ℤ
  amount : JSFloat
  currency : Currency
  category : Category
  description : String
deriving DecidableEq, Repr

/-- The component state touched by `handleSubmit`, over the full number
domain. -/
structure FormStateJS where
  expenses : List ExpenseJS
  amount : String
  currency : Currency
  category : Category
  description : String
deriving DecidableEq, Repr

/-- Result of a submission over the full number domain. -/
structure SubmitOutJS where
  state : FormStateJS
  toast : Toast
deriving DecidableEq, Repr

/-- Handler `handleSubmit` (page.tsx lines 71–88) over the full number
domain: `!amount || isNaN(Number.parseFloat(amount))` rejects with an
error toast and no state change; any non-`NaN` parse — finite or infinite
— is appended and the amount and description fields are cleared. -/
def handleSubmitJS (now : ℤ) (s : FormStateJS) : SubmitOutJS :=
  if s.amount = "" ∨ jsIsNaN (parseFloatJS s.amount) then
    SubmitOutJS.mk s (Toast.errorToast "Please enter a valid amount")
  else
    SubmitOutJS.mk
      (FormStateJS.mk
        (s.expenses ++ [ExpenseJS.mk now (parseFloatJS s.amount) s.currency s.category s.description])
        "" s.currency s.category "")
      (Toast.successToast "Expense added successfully!")

/-! ### General lemmas about `Math.round` and rounded sums -/

/-- Rounding overshoots its argument by at most one half. -/
theorem mathRound_le (q : ℚ) : (mathRound q : ℚ) ≤ q + 1 / 2 :=
  Int.floor_le (q + 1 / 2)

/-- Rounding undershoots its argument by strictly less than one half. -/
theorem lt_mathRound (q : ℚ) : q - 1 / 2 < (mathRound q : ℚ) := by
  have h := Int.sub_one_lt_floor (q + 1 / 2)
  unfold mathRound
  linarith

/-- Rounding each entry of a list overshoots the exact sum by at most half
a unit per entry. -/
theorem roundedSum_le (l : List ℚ) :
    ((l.map mathRound).sum : ℚ) ≤ l.sum + l.length * (1 / 2) := by
  induction l with
  | nil => simp
  | cons a l ih =>
      have h := mathRound_le a
      simp only [List.map_cons, List.sum_cons, List.length_cons] at *
      push_cast at *
      linarith

/-- Rounding each entry of a nonempty list undershoots the exact sum by
strictly less than half a unit per entry. -/
theorem sum_lt_roundedSum (a : ℚ) (l : List ℚ) :
    (a :: l).sum - (a :: l).length * (1 / 2) < (((a :: l).map mathRound).sum : ℚ) := by
  induction l generalizing a with
  | nil =>
      have h := lt_mathRound a
      simp only [List.map_cons, List.map_nil, List.sum_cons, List.sum_nil,
        List.length_cons, List.length_nil]
      push_cast
      linarith
  | cons b l ih =>
      have h1 := lt_mathRound a
      have h2 := ih b
      simp only [List.map_cons, List.sum_cons, List.length_cons] at *
      push_cast at *
      linarith

/-- Per-item rounding and one final rounding of a list's sum differ by at
most half a unit per entry (stated doubled to stay in `ℤ`). -/
theorem abs_roundedSum_sub_mathRound_sum (l : List ℚ) :
    2 * |(l.map mathRound).sum - mathRound l.sum| ≤ (l.length : ℤ) := by
  rcases l with _ | ⟨a, l⟩
  · norm_num [mathRound]
  · have hub := roundedSum_le (a :: l)
    have hlb := sum_lt_roundedSum a l
    have h3 := mathRound_le (a :: l).sum
    have h4 := lt_mathRound (a :: l).sum
    set R : ℤ := ((a :: l).map mathRound).sum with hR
    set M : ℤ := mathRound (a :: l).sum with hM
    set n : ℕ := (a :: l).length with hn
    have habs : |2 * (R - M)| = 2 * |R - M| := by
      rw [abs_mul]
      norm_num
    rw [← habs, abs_le]
    constructor
    · have hq : (-((n : ℤ) + 1) : ℚ) < ((2 * (R - M) : ℤ) : ℚ) := by
        push_cast
        linarith
      have hz : (-((n : ℤ) + 1) : ℤ) < 2 * (R - M) := by
        exact_mod_cast hq
      omega
    · have hq : ((2 * (R - M) : ℤ) : ℚ) < ((n : ℤ) : ℚ) + 1 := by
        push_cast
        linarith
      have hz : 2 * (R - M) < (n : ℤ) + 1 := by
        exact_mod_cast hq
      omega

/-! ### Claims -/

/-- C1: the spec's invariant says every category's reporting-currency (VND)
field equals the sum of the per-expense conversions via the current rate
table.  The code violates it: for a single VND-currency expense of 10 at
the identity rate table, the conversions sum to 10 — the rounded
conversion of the one expense — but the shared `VND` field also receives
the raw native amount, so `categorySums` reports 20.  The intersection
type `& { VND: number }` shows a distinct reporting field was intended, so
this is a slip in the code, not in the spec. -/
theorem c1_vnd_field_double_counts_at_failing_input :
    (categorySums (ExchangeRates.mk 1 1 1)
        [Expense.mk 0 10 Currency.VND Category.other ""] Category.other).VND = 20
    ∧ (([Expense.mk 0 10 Currency.VND Category.other ""].filter
          (fun e => e.category = Category.other)).map
        (fun e => (convertToVND (ExchangeRates.mk 1 1 1) e.amount e.currency : ℚ))).sum = 10 := by
  constructor
  · simp +decide [categorySums, applyExpense, addNative, convertToVND,
      ExchangeRates.get, mathRound, CategorySum.zero]
    norm_num
  · simp +decide [convertToVND, ExchangeRates.get, mathRound]
    norm_num

/-- C2: `convertToVND` converts a base-currency (EUR) amount as
`round(a * rate_VND)` and any other amount as
`round((a / rate_c) * rate_VND)`, rounding once, on the final
reporting-currency value. -/
theorem c2_convertToVND_formula (r : ExchangeRates) (a : ℚ) :
    convertToVND r a Currency.EUR = mathRound (a * r.VND)
    ∧ convertToVND r a Currency.USD = mathRound (a / r.USD * r.VND)
    ∧ convertToVND r a Currency.VND = mathRound (a / r.VND * r.VND) :=
  ⟨rfl, rfl, rfl⟩

/-- C3: `CategorySum` has exactly the three numeric fields `EUR`, `USD`,
`VND` (the `& { VND: number }` intersection adds no fourth field), so the
per-expense update for a VND-currency expense increases the category's
`VND` field by the raw amount plus the rounded converted contribution, not
by the raw amount alone. -/
theorem c3_vnd_expense_adds_amount_and_conversion (r : ExchangeRates)
    (sums : Category → CategorySum) (i : ℤ) (a : ℚ) (cat : Category) (d : String) :
    (applyExpense r sums (Expense.mk i a Currency.VND cat d) cat).VND
      = (sums cat).VND + a + (convertToVND r a Currency.VND : ℚ) := by
  simp [applyExpense, addNative]

/-- C4: each field of `totalSum` — EUR, USD and the reporting-currency VND
field — is the sum of that field over the per-category accumulators. -/
theorem c4_totalSum_is_fieldwise_sum (r : ExchangeRates) (es : List Expense) :
    (totalSum r es).EUR = (allCategories.map fun c => (categorySums r es c).EUR).sum
    ∧ (totalSum r es).USD = (allCategories.map fun c => (categorySums r es c).USD).sum
    ∧ (totalSum r es).VND = (allCategories.map fun c => (categorySums r es c).VND).sum := by
  refine ⟨?_, ?_, ?_⟩ <;>
    simp [totalSum, allCategories, addSum, CategorySum.zero] <;>
    ring

/-- On a successful parse, `handleSubmit` appends the expense built from
the parsed amount and the form fields, and shows the success toast. -/
theorem handleSubmit_of_parse_some (now : ℤ) (s : FormState) (q : ℚ)
    (hq : parseFloat s.amount = some q) :
    handleSubmit now s
      = SubmitOut.mk
          (FormState.mk
            (s.expenses ++ [Expense.mk now q s.currency s.category s.description])
            "" s.currency s.category "")
          (Toast.successToast "Expense added successfully!") := by
  have hne : s.amount ≠ "" := by
    intro he
    rw [he] at hq
    simp +decide [parseFloat] at hq
  simp [handleSubmit, hne, hq]

/-- On a failed parse, `handleSubmit` changes nothing and shows the error
toast. -/
theorem handleSubmit_of_parse_none (now : ℤ) (s : FormState)
    (hq : parseFloat s.amount = none) :
    handleSubmit now s = SubmitOut.mk s (Toast.errorToast "Please enter a valid amount") := by
  simp [handleSubmit, hq]

/-- C5 counterexample: the claim's only-if fails on the code.  Submitting
the amount string `"Infinity"` appends an expense and shows the success
toast although the string does not parse as a finite number:
`Number.parseFloat` returns `Infinity` there and `isNaN(Infinity)` is
`false`, so the guard lets it through. -/
theorem c5_counterexample_infinity_appended :
    (handleSubmitJS 0 (FormStateJS.mk [] "Infinity" Currency.EUR Category.other "")).state.expenses
      = [ExpenseJS.mk 0 (JSFloat.infinity false) Currency.EUR Category.other ""]
    ∧ (handleSubmitJS 0 (FormStateJS.mk [] "Infinity" Currency.EUR Category.other "")).toast
      = Toast.successToast "Expense added successfully!"
    ∧ parseFloatJS "Infinity" = JSFloat.infinity false := by
  refine ⟨?_, ?_, ?_⟩ <;>
    simp +decide [handleSubmitJS, parseFloatJS, parseFloat, startsWith, jsIsNaN]

/-- C5 as amended: a submission appends the expense exactly when the
amount string is nonempty and `Number.parseFloat` returns a number rather
than `NaN` — finite or infinite, since the guard checks only `isNaN`; on
a `NaN` parse (empty or non-numeric input) the submission is rejected
with a user-visible error toast and the expense sequence is left
unchanged. -/
theorem c5_amended_appends_iff_not_nan (now : ℤ) (s : FormStateJS) :
    (¬(s.amount = "" ∨ jsIsNaN (parseFloatJS s.amount) = true) →
      (handleSubmitJS now s).state.expenses
        = s.expenses ++ [ExpenseJS.mk now (parseFloatJS s.amount) s.currency s.category s.description]
      ∧ (handleSubmitJS now s).toast = Toast.successToast "Expense added successfully!")
    ∧ ((s.amount = "" ∨ jsIsNaN (parseFloatJS s.amount) = true) →
      (handleSubmitJS now s).state.expenses = s.expenses
      ∧ (handleSubmitJS now s).toast = Toast.errorToast "Please enter a valid amount") := by
  constructor
  · intro h
    simp only [handleSubmitJS, if_neg h]
    exact ⟨trivial, trivial⟩
  · intro h
    simp only [handleSubmitJS, if_pos h]
    exact ⟨trivial, trivial⟩

/-- Witness for the amended C5: `"-Infinity"` passes the guard and is
appended with an infinite amount, while `"x1"` parses to `NaN` and is
rejected with the error toast and an unchanged sequence. -/
theorem c5_amended_appends_iff_not_nan_witness :
    ((handleSubmitJS 2 (FormStateJS.mk [] "-Infinity" Currency.USD Category.groceries "a")).state.expenses
        = [ExpenseJS.mk 2 (JSFloat.infinity true) Currency.USD Category.groceries "a"]
      ∧ (handleSubmitJS 2 (FormStateJS.mk [] "-Infinity" Currency.USD Category.groceries "a")).toast
        = Toast.successToast "Expense added successfully!")
    ∧ ((handleSubmitJS 2 (FormStateJS.mk [] "x1" Currency.USD Category.groceries "a")).state.expenses = []
      ∧ (handleSubmitJS 2 (FormStateJS.mk [] "x1" Currency.USD Category.groceries "a")).toast
        = Toast.errorToast "Please enter a valid amount") := by
  constructor
  · have hp : parseFloatJS "-Infinity" = JSFloat.infinity true := by
      simp +decide [parseFloatJS, parseFloat, startsWith]
    have h := (c5_amended_appends_iff_not_nan 2
        (FormStateJS.mk [] "-Infinity" Currency.USD Category.groceries "a")).1
      (by simp +decide [hp, jsIsNaN])
    rw [hp] at h
    simpa using h
  · exact (c5_amended_appends_iff_not_nan 2
        (FormStateJS.mk [] "x1" Currency.USD Category.groceries "a")).2
      (Or.inr (by simp +decide [parseFloatJS, parseFloat, startsWith, jsIsNaN]))

/-- C6 counterexample: submitting the amount string `"-5"` places an
expense with the negative amount `-5` into the store, so not every stored
expense has a strictly positive amount. -/
theorem c6_counterexample_negative_amount_stored :
    ((handleSubmit 0 (FormState.mk [] "-5" Currency.EUR Category.other "")).state.expenses.map
        Expense.amount) = [(-5 : ℚ)]
    ∧ ¬ (0 : ℚ) < (-5 : ℚ) := by
  constructor
  · simp +decide [handleSubmit, parseFloat, digitsToNat]
  · norm_num

/-- C6 as amended: a submission appends an expense exactly when the
amount string is nonempty and parses to a number rather than `NaN`
(forward direction: a successful parse forces the append; backward: a
`NaN` parse leaves the store unchanged), and the appended amount is
exactly the parsed value.  The guard never inspects sign or magnitude, so
zero and negative amounts are admitted: strict positivity is not an
invariant of the store. -/
theorem c6_amended_append_exactly_on_parse (now : ℤ) (s : FormStateJS) :
    (¬(s.amount = "" ∨ jsIsNaN (parseFloatJS s.amount) = true) →
      (handleSubmitJS now s).state.expenses.map ExpenseJS.amount
        = s.expenses.map ExpenseJS.amount ++ [parseFloatJS s.amount])
    ∧ ((s.amount = "" ∨ jsIsNaN (parseFloatJS s.amount) = true) →
      (handleSubmitJS now s).state.expenses = s.expenses) := by
  constructor
  · intro h
    simp only [handleSubmitJS, if_neg h]
    simp
  · intro h
    simp only [handleSubmitJS, if_pos h]

/-- Witness for the amended C6: submitting `"-5"` forces the append and
stores the parsed value `-5`, and submitting the empty string leaves the
store unchanged. -/
theorem c6_amended_append_exactly_on_parse_witness :
    ((handleSubmitJS 3 (FormStateJS.mk [] "-5" Currency.EUR Category.other "neg")).state.expenses.map
        ExpenseJS.amount = [JSFloat.fin (-5)])
    ∧ (handleSubmitJS 3 (FormStateJS.mk [] "" Currency.EUR Category.other "neg")).state.expenses
        = [] := by
  constructor
  · have hp : parseFloatJS "-5" = JSFloat.fin (-5) := by
      simp +decide [parseFloatJS, parseFloat, startsWith, digitsToNat]
      norm_num [doubleOverflowBound]
    have h := (c6_amended_append_exactly_on_parse 3
        (FormStateJS.mk [] "-5" Currency.EUR Category.other "neg")).1
      (by simp +decide [hp, jsIsNaN])
    rw [hp] at h
    simpa using h
  · exact (c6_amended_append_exactly_on_parse 3
      (FormStateJS.mk [] "" Currency.EUR Category.other "neg")).2 (Or.inl rfl)

/-- C7: a valid submission appends exactly one expense at the end: the new
sequence is the old one with the new expense appended, every previously
stored expense keeps its position, and the length grows by one. -/
theorem c7_append_preserves_existing (now : ℤ) (s : FormState) (q : ℚ)
    (h : parseFloat s.amount = some q) :
    (handleSubmit now s).state.expenses
      = s.expenses ++ [Expense.mk now q s.currency s.category s.description]
    ∧ (handleSubmit now s).state.expenses.take s.expenses.length = s.expenses
    ∧ (handleSubmit now s).state.expenses.length = s.expenses.length + 1 := by
  have happ : (handleSubmit now s).state.expenses
      = s.expenses ++ [Expense.mk now q s.currency s.category s.description] := by
    rw [handleSubmit_of_parse_some now s q h]
  refine ⟨happ, ?_, ?_⟩
  · rw [happ]
    simp
  · rw [happ]
    simp

/-- Witness for C7: appending `"2.5"` to a store already holding one
expense keeps that expense in place and adds one entry at the end. -/
theorem c7_append_preserves_existing_witness :
    (handleSubmit 7 (FormState.mk [Expense.mk 1 3 Currency.USD Category.groceries "old"]
        "2.5" Currency.VND Category.furniture "new")).state.expenses
      = [Expense.mk 1 3 Currency.USD Category.groceries "old"]
          ++ [Expense.mk 7 (5 / 2) Currency.VND Category.furniture "new"]
    ∧ (handleSubmit 7 (FormState.mk [Expense.mk 1 3 Currency.USD Category.groceries "old"]
        "2.5" Currency.VND Category.furniture "new")).state.expenses.take
          [Expense.mk 1 3 Currency.USD Category.groceries "old"].length
      = [Expense.mk 1 3 Currency.USD Category.groceries "old"]
    ∧ (handleSubmit 7 (FormState.mk [Expense.mk 1 3 Currency.USD Category.groceries "old"]
        "2.5" Currency.VND Category.furniture "new")).state.expenses.length
      = [Expense.mk 1 3 Currency.USD Category.groceries "old"].length + 1 :=
  c7_append_preserves_existing 7
    (FormState.mk [Expense.mk 1 3 Currency.USD Category.groceries "old"]
      "2.5" Currency.VND Category.furniture "new") (5 / 2)
    (by simp +decide [parseFloat, digitsToNat]; norm_num)

/-- C8: a failed rate fetch (the `catch` branch: network or parse error)
performs no `setExchangeRates`, so the table stays exactly the last
successful one — or the identity default `{EUR:1, USD:1, VND:1}` before
any success — and every subsequent conversion is unchanged by the
failure. -/
theorem c8_fetch_failure_keeps_table (current : ExchangeRates) (a : ℚ) (c : Currency) :
    fetchStep current none = current
    ∧ convertToVND (fetchStep current none) a c = convertToVND current a c
    ∧ initialRates = ExchangeRates.mk 1 1 1 :=
  ⟨rfl, rfl, rfl⟩

/-- C9: for expenses `[{amount:10, currency:EUR}, {amount:5, currency:USD}]`
and rates `{EUR:1, USD:2, VND:25000}`, the EUR expense converts to
`round(10 × 25000) = 250000`, the USD expense to `(5/2) × 25000 = 62500`,
the native subtotals stay `10` (EUR field) and `5` (USD field), and the
reporting-currency grand total is `312500`. -/
theorem c9_scenario_two_expenses :
    convertToVND (ExchangeRates.mk 1 2 25000) 10 Currency.EUR = 250000
    ∧ convertToVND (ExchangeRates.mk 1 2 25000) 5 Currency.USD = 62500
    ∧ (categorySums (ExchangeRates.mk 1 2 25000)
        [Expense.mk 0 10 Currency.EUR Category.other "",
         Expense.mk 1 5 Currency.USD Category.other ""] Category.other).EUR = 10
    ∧ (categorySums (ExchangeRates.mk 1 2 25000)
        [Expense.mk 0 10 Currency.EUR Category.other "",
         Expense.mk 1 5 Currency.USD Category.other ""] Category.other).USD = 5
    ∧ (totalSum (ExchangeRates.mk 1 2 25000)
        [Expense.mk 0 10 Currency.EUR Category.other "",
         Expense.mk 1 5 Currency.USD Category.other ""]).VND = 312500 := by
  refine ⟨?_, ?_, ?_, ?_, ?_⟩ <;>
    simp +decide [totalSum, allCategories, addSum, categorySums, applyExpense,
      addNative, convertToVND, ExchangeRates.get, mathRound, CategorySum.zero] <;>
    norm_num

/-- C10: summing the individually rounded reporting-currency contributions
differs from rounding the unrounded sum once by at most half a rounding
unit per expense: twice the absolute difference is at most the number of
expenses. -/
theorem c10_per_expense_rounding_bound (r : ExchangeRates) (es : List Expense) :
    2 * |(es.map (fun e => convertToVND r e.amount e.currency)).sum
          - mathRound ((es.map (fun e => unroundedVND r e.amount e.currency)).sum)|
      ≤ (es.length : ℤ) := by
  have hmap : es.map (fun e => convertToVND r e.amount e.currency)
      = (es.map (fun e => unroundedVND r e.amount e.currency)).map mathRound := by
    rw [List.map_map]
    rfl
  have hlen : (es.map (fun e => unroundedVND r e.amount e.currency)).length = es.length :=
    List.length_map es _
  rw [hmap]
  calc 2 * |((es.map (fun e => unroundedVND r e.amount e.currency)).map mathRound).sum
          - mathRound ((es.map (fun e => unroundedVND r e.amount e.currency)).sum)|
      ≤ ((es.map (fun e => unroundedVND r e.amount e.currency)).length : ℤ) :=
        abs_roundedSum_sub_mathRound_sum _
    _ = (es.length : ℤ) := by rw [hlen]
